import Mathlib

/-!
Shallow embedding of the PostgreSQL test-setup plugin orchestrator
(`plugin_postgresql/plugin.ts`): the `PluginFactory` methods `#setup`,
`#buildTeardown`, `#setupExistingDatabaseServer`, `#setupNewDatabaseServer`,
`#shouldRunDatabaseCreation`, `#shouldRunMigration` and `#shouldRunSeed`.

Asynchronous, possibly-throwing computations are embedded as `Eff α`:
a list of observable collaborator events (the trace) together with an
`Except String α` outcome.  `await e` sequencing becomes `Eff.bind`, a
thrown error becomes `Except.error`, and a rejected `await` propagating
out of an `async` function becomes `Eff.bind`'s error short-circuit.

The collaborator classes the orchestrator delegates to (`DockerServerStrategy`,
`Server.init`, `DatabaseStrategy`, `SqlMigrationStrategy`, `SeedStrategy`)
live in files that are not part of the sources here; the orchestrator is
therefore parameterized over an environment `Env` carrying one function per
collaborator, and concrete instances modelled from the spec are provided
for evaluation.
-/

namespace NiftyPg

/-- Modelled from the spec: the connection capability of a server handle
(`server.ts` is not among the sources): network address, credentials and
logical database name (spec section 3, ServerHandle). -/
structure ConnectionDetails where
  serverName : String
  hostname : String
  port : Nat
  user : String
  password : String
  database : String
  deriving DecidableEq, Repr

/-- Modelled from the spec: a `Server` handle (`server.ts` is not among the
sources): an identity token plus the connection capability. -/
structure Server where
  id : String
  connection : ConnectionDetails
  deriving DecidableEq, Repr

/-- The provisioning request of `PluginConfig.server` (`ServerConfig`,
spec section 6: `{strategy, port?, user?, password?, databaseName?,
databaseNamePrefix?, databaseServerNamePrefix?, version?}`).  The strategy
tag is a string at runtime, as a TypeScript enum member is. -/
structure ServerConfig where
  strategy : String
  port : Option Nat := none
  user : Option String := none
  password : Option String := none
  databaseName : Option String := none
  databaseNamePrefix : Option String := none
  databaseServerNamePrefix : Option String := none
  version : Option String := none
  deriving DecidableEq, Repr

/-- The recognized server provisioning strategy tag (`ServerStrategy.DOCKER`). -/
def ServerStrategy.DOCKER : String := "DOCKER"

/-- The recognized migration strategy tag (`MigrationStrategy.SQL`). -/
def MigrationStrategy.SQL : String := "SQL"

/-- Modelled from the spec: the database-creation request (`database.ts` is
not among the sources): `{prefix?} or similar creation hints` (spec section
6).  The source field is named `prefix`, which Lean reserves. -/
structure DatabaseConfig where
  prefixName : Option String := none
  deriving DecidableEq, Repr

/-- The migration request: a strategy tag and a directory root (spec
section 6: `{strategy, root}`). -/
structure MigrationConfig where
  strategy : String
  root : String
  deriving DecidableEq, Repr

/-- One row record of a seed request: field name and value pairs. -/
abbrev RowRecord := List (String × String)

/-- The seed request: a mapping of table name to an ordered sequence of row
records (spec section 6). -/
structure SeedConfig where
  tables : List (String × List RowRecord)
  deriving DecidableEq, Repr

/-- `MigrationOutput`: the ordered list of applied-migration descriptors,
modelled from the spec as each descriptor's name (`migration.ts` is not
among the sources). -/
structure MigrationOutput where
  results : List String
  deriving DecidableEq, Repr

/-- `SeedOutput`: the ordered list of per-table insertion results, modelled
from the spec as each outcome's descriptor (`seed.ts` is not among the
sources). -/
structure SeedOutput where
  results : List String
  deriving DecidableEq, Repr

/-- The union type `ServerConfig | Server` of `PluginConfig.server`.  The
source discriminates with `config.server instanceof Server`. -/
inductive ServerSource where
  | existing (server : Server)
  | provision («config» : ServerConfig)
  deriving DecidableEq, Repr

/-- `PluginConfig` (plugin.ts lines 511-531): the server source plus the
optional database, migrate, and seed requests. -/
structure PluginConfig where
  server : ServerSource
  database : Option DatabaseConfig := none
  migrate : Option MigrationConfig := none
  seed : Option SeedConfig := none
  deriving DecidableEq, Repr

/-- `DockerServerStrategyConfig` (`server_docker.ts`): the fully-synthesized
identity the provisioning path hands to the Docker strategy
(plugin.ts lines 98-105). -/
structure DockerServerStrategyConfig where
  serverName : String
  port : Nat
  user : String
  password : String
  database : String
  version : String
  deriving DecidableEq, Repr

/-- An observable collaborator side effect, for tracing which external calls
a run performs and in which order. -/
inductive Event where
  | dockerStart (serverName : String)
  | connectionWrap (id : String)
  | serverInit (id : String)
  | dbCreate (name : String)
  | migrationApply (name : String)
  | seedInsert (table : String)
  | dbDrop (name : String)
  | stopContainer (serverName : String)
  | note (tag : String)
  deriving DecidableEq, Repr

instance {ε α : Type} [DecidableEq ε] [DecidableEq α] :
    DecidableEq (Except ε α) := fun a b =>
  match a, b with
  | Except.error e, Except.error f =>
    if h : e = f then isTrue (by rw [h]) else
      isFalse (fun hc => h (by cases hc; rfl))
  | Except.error _, Except.ok _ => isFalse (fun hc => Except.noConfusion hc)
  | Except.ok _, Except.error _ => isFalse (fun hc => Except.noConfusion hc)
  | Except.ok a, Except.ok b =>
    if h : a = b then isTrue (by rw [h]) else
      isFalse (fun hc => h (by cases hc; rfl))

/-- A possibly-throwing asynchronous computation: the ordered trace of
collaborator events it performed, and its outcome (a value, or the thrown
error's message). -/
structure Eff (α : Type) where
  events : List Event
  result : Except String α
  deriving DecidableEq, Repr

/-- `await x; continue`: if `x` rejects the error propagates and nothing
after it runs; otherwise the continuation's events follow `x`'s. -/
def Eff.bind {α β : Type} (x : Eff α) (f : α → Eff β) : Eff β :=
  match x.result with
  | Except.error e => ⟨x.events, Except.error e⟩
  | Except.ok a => ⟨x.events ++ (f a).events, (f a).result⟩

/-- A computation that performs nothing and returns `a`
(`Promise.resolve(a)`). -/
def Eff.pure {α : Type} (a : α) : Eff α := ⟨[], Except.ok a⟩

/-- A computation that performs nothing and throws `e`. -/
def Eff.fail {α : Type} (e : String) : Eff α := ⟨[], Except.error e⟩

/-- `PluginInstance`: a teardown action plus the phase's output
(the shape `{ teardown, output }` returned by each strategy `setup`). -/
structure PluginInstance (α : Type) where
  teardown : Eff Unit
  output : α
  deriving DecidableEq, Repr

/-- `DatabaseOutput` (`database.ts`): the server handle the downstream phases
use plus the database phase's teardown action. -/
structure DatabaseOutput where
  server : Server
  teardown : Eff Unit
  deriving DecidableEq, Repr

/-- `PluginResult` (plugin.ts lines 536-551): the server handle, the
migration output and the seed output. -/
structure PluginResult where
  server : Server
  migrate : MigrationOutput
  seed : SeedOutput
  deriving DecidableEq, Repr

/-- The external collaborators the orchestrator delegates to, one function
per strategy class that is not among the sources: `DockerServerStrategy.setup`,
`Server.init`, `DatabaseStrategy.run`, `SqlMigrationStrategy.run` (which
receives `server.connection`), and `SeedStrategy.run` (likewise). -/
structure Env where
  dockerSetup : DockerServerStrategyConfig → Eff (PluginInstance Server)
  initServer : Server → Eff Unit
  databaseRun : DatabaseConfig → Server → Eff DatabaseOutput
  sqlMigrationRun : MigrationConfig → ConnectionDetails → Eff MigrationOutput
  seedRun : SeedConfig → ConnectionDetails → Eff SeedOutput

/-- Modelled from the spec: `assertNever` (exported by the core testing
module, not among the sources) raises the given message when dispatch
reaches an unrecognized variant — it never silently no-ops. -/
def assertNever {α : Type} (msg : String) : Eff α := Eff.fail msg

/-- JavaScript `x || d` defaulting on an optional string field: both an
absent field and the empty string are falsy, so both select the default. -/
def jsOr (x : Option String) (d : String) : String :=
  match x with
  | none => d
  | some s => if s = "" then d else s

/-- The three random draws `Math.random().toString(36).substring(2)` a
provisioning run makes: the name suffix, the default user and the default
password (plugin.ts lines 83, 90-93). -/
structure Rand where
  suffix : String
  randUser : String
  randPassword : String
  deriving DecidableEq, Repr

/-- The default synthesis of `PluginFactory.#setupNewDatabaseServer`
(plugin.ts lines 83-94 and 98-105): `database` and `serverName` default to
their prefix (or "postgres") joined with the random suffix via `||`,
`port`/`user`/`password` default via `??`, `version` defaults via `||`. -/
def synthesizeDockerConfig (rnd : Rand) («config» : ServerConfig) :
    DockerServerStrategyConfig :=
  { serverName :=
      jsOr config.databaseServerNamePrefix "postgres" ++ "-" ++ rnd.suffix
    port := config.port.getD 0
    user := config.user.getD rnd.randUser
    password := config.password.getD rnd.randPassword
    database :=
      jsOr config.databaseName
        (jsOr config.databaseNamePrefix "postgres" ++ "-" ++ rnd.suffix)
    version := jsOr config.version "latest" }

/-- `PluginFactory.#setupNewDatabaseServer` (plugin.ts lines 80-116):
synthesize the Docker config, then dispatch on the strategy tag —
`DOCKER` runs the Docker strategy, anything else is `assertNever`. -/
def setupNewDatabaseServer (env : Env) (rnd : Rand) («config» : ServerConfig) :
    Eff (PluginInstance Server) :=
  let dockerConfig := synthesizeDockerConfig rnd config
  if config.strategy = ServerStrategy.DOCKER then
    env.dockerSetup dockerConfig
  else
    assertNever ("Unknown strategy: " ++ config.strategy)

/-- Modelled from the spec: `ConnectionStrategy.setup`
(`server_connection.ts` is not among the sources) wraps a caller-supplied
server without side effects beyond initialization; its teardown is a no-op
(the caller owns the lifecycle of a server it supplied itself). -/
def connectionStrategySetup (server : Server) : Eff (PluginInstance Server) :=
  ⟨[], Except.ok { teardown := Eff.pure (), output := server }⟩

/-- `PluginFactory.#setupExistingDatabaseServer` (plugin.ts lines 73-78):
delegate to the connection strategy over the supplied server. -/
def setupExistingDatabaseServer (server : Server) : Eff (PluginInstance Server) :=
  connectionStrategySetup server

/-- The `config.server instanceof Server` branch opening
`PluginFactory.#setup` (plugin.ts lines 38-43). -/
def serverPhase (env : Env) (rnd : Rand) («config» : PluginConfig) :
    Eff (PluginInstance Server) :=
  match config.server with
  | ServerSource.existing s => setupExistingDatabaseServer s
  | ServerSource.provision sc => setupNewDatabaseServer env rnd sc

/-- `PluginFactory.#shouldRunDatabaseCreation` (plugin.ts lines 118-127):
without a `database` config, pass the server through with teardown
`() => Promise.resolve()`; otherwise run the database strategy. -/
def shouldRunDatabaseCreation (env : Env) («config» : PluginConfig)
    (server : Server) : Eff DatabaseOutput :=
  match config.database with
  | none => Eff.pure { server := server, teardown := Eff.pure () }
  | some dbConfig => env.databaseRun dbConfig server

/-- `PluginFactory.#shouldRunMigration` (plugin.ts lines 129-151): without a
`migrate` config return `{ results: [] }`; otherwise dispatch on the
migration strategy tag — `SQL` runs the SQL strategy over
`server.connection`, anything else is `assertNever`. -/
def shouldRunMigration (env : Env) («config» : PluginConfig)
    (server : Server) : Eff MigrationOutput :=
  match config.migrate with
  | none => Eff.pure { results := [] }
  | some m =>
    if m.strategy = MigrationStrategy.SQL then
      env.sqlMigrationRun m server.connection
    else
      assertNever ("Unknown migration strategy: " ++ m.strategy)

/-- `PluginFactory.#shouldRunSeed` (plugin.ts lines 153-162): without a
`seed` config return `{ results: [] }`; otherwise run the seed strategy
over `server.connection`. -/
def shouldRunSeed (env : Env) («config» : PluginConfig)
    (server : Server) : Eff SeedOutput :=
  match config.seed with
  | none => Eff.pure { results := [] }
  | some seedConfig => env.seedRun seedConfig server.connection

/-- `PluginFactory.#buildTeardown` (plugin.ts lines 63-71): the composite
teardown awaits each action in list order; a rejection propagates out of
the `for` loop. -/
def buildTeardown : List (Eff Unit) → Eff Unit
  | [] => Eff.pure ()
  | t :: rest => Eff.bind t (fun _ => buildTeardown rest)

/-- `PluginFactory.#setup` (plugin.ts lines 35-61): run the server phase,
await `init()`, run the database phase, then build the result, awaiting the
migration phase and then the seed phase; the composite teardown is
`#buildTeardown([teardownDatabase, teardown])`. -/
def setup (env : Env) (rnd : Rand) («config» : PluginConfig) :
    Eff (PluginInstance PluginResult) :=
  Eff.bind (serverPhase env rnd config) (fun setupInst =>
    Eff.bind (env.initServer setupInst.output) (fun _ =>
      Eff.bind (shouldRunDatabaseCreation env config setupInst.output) (fun dbOut =>
        Eff.bind (shouldRunMigration env config dbOut.server) (fun migrateOut =>
          Eff.bind (shouldRunSeed env config dbOut.server) (fun seedOut =>
            Eff.pure
              { teardown := buildTeardown [dbOut.teardown, setupInst.teardown]
                output :=
                  { server := dbOut.server
                    migrate := migrateOut
                    seed := seedOut } })))))

/-- Modelled from the spec: `DockerServerStrategy.setup` (`server_docker.ts`
is not among the sources) starts a container with the synthesized identity
and returns a server handle plus a teardown that stops the container. -/
def dockerStrategySetup (c : DockerServerStrategyConfig) :
    Eff (PluginInstance Server) :=
  ⟨[Event.dockerStart c.serverName], Except.ok
    { teardown := ⟨[Event.stopContainer c.serverName], Except.ok ()⟩
      output :=
        { id := c.serverName
          connection :=
            { serverName := c.serverName
              hostname := "localhost"
              port := c.port
              user := c.user
              password := c.password
              database := c.database } } }⟩

/-- Modelled from the spec: `DatabaseStrategy.run` (`database.ts` is not
among the sources) creates a new logical database on the server and returns
a handle bound to it plus a teardown that drops it.  The new name joins the
configured creation hint (or "postgres") with a random suffix, here passed
explicitly. -/
def databaseStrategyRun (suffix : String) (c : DatabaseConfig)
    (server : Server) : Eff DatabaseOutput :=
  let newName := jsOr c.prefixName "postgres" ++ "-" ++ suffix
  ⟨[Event.dbCreate newName], Except.ok
    { server :=
        { server with connection := { server.connection with database := newName } }
      teardown := ⟨[Event.dbDrop newName], Except.ok ()⟩ }⟩

/-- Modelled from the spec: `Server.init` performs the readiness handshake
against the server; here it succeeds after one observable poll. -/
def initServerOk (server : Server) : Eff Unit :=
  ⟨[Event.serverInit server.id], Except.ok ()⟩

/-- Modelled from the spec: `SqlMigrationStrategy.run` applies the files
under the configured root in deterministic order; here two units succeed. -/
def sqlMigrationRunOk (m : MigrationConfig) (_ : ConnectionDetails) :
    Eff MigrationOutput :=
  ⟨[Event.migrationApply (m.root ++ "/001.sql"),
    Event.migrationApply (m.root ++ "/002.sql")], Except.ok
    { results := [m.root ++ "/001.sql", m.root ++ "/002.sql"] }⟩

/-- Modelled from the spec: `SeedStrategy.run` inserts each table's rows in
the order given and reports a per-table outcome list in the same order. -/
def seedRunOk (sc : SeedConfig) (_ : ConnectionDetails) : Eff SeedOutput :=
  ⟨sc.tables.map (fun t => Event.seedInsert t.fst), Except.ok
    { results := sc.tables.map (fun t => t.fst) }⟩

/-- A concrete collaborator environment, every collaborator modelled from
the spec and succeeding; used to evaluate the orchestrator on concrete
configurations. -/
def specEnv : Env :=
  { dockerSetup := dockerStrategySetup
    initServer := initServerOk
    databaseRun := databaseStrategyRun "dbsuf"
    sqlMigrationRun := sqlMigrationRunOk
    seedRun := seedRunOk }

/-- `specEnv` with a migration strategy whose second unit fails: one unit
applies, then the run rejects. -/
def failingMigrationEnv : Env :=
  { specEnv with
      sqlMigrationRun := fun m _ =>
        ⟨[Event.migrationApply (m.root ++ "/001.sql")],
          Except.error "migration unit 2 failed"⟩ }

/-- A fixed triple of random draws for concrete evaluations. -/
def rnd0 : Rand := { suffix := "sfx", randUser := "ru", randPassword := "rp" }

theorem Eff.bind_ok {α β : Type} {x : Eff α} {tr : List Event} {a : α}
    (h : x = ⟨tr, Except.ok a⟩) (f : α → Eff β) :
    Eff.bind x f = ⟨tr ++ (f a).events, (f a).result⟩ := by
  subst h; rfl

theorem Eff.bind_error {α β : Type} {x : Eff α} {tr : List Event} {e : String}
    (h : x = ⟨tr, Except.error e⟩) (f : α → Eff β) :
    Eff.bind x f = ⟨tr, Except.error e⟩ := by
  subst h; rfl

@[simp]
theorem Eff.events_mk {α : Type} (tr : List Event) (r : Except String α) :
    (Eff.mk tr r).events = tr := rfl

@[simp]
theorem Eff.result_mk {α : Type} (tr : List Event) (r : Except String α) :
    (Eff.mk tr r).result = r := rfl

@[simp]
theorem Eff.bind_mk_ok {α β : Type} (tr : List Event) (a : α) (f : α → Eff β) :
    Eff.bind ⟨tr, Except.ok a⟩ f = ⟨tr ++ (f a).events, (f a).result⟩ := rfl

@[simp]
theorem Eff.bind_mk_error {α β : Type} (tr : List Event) (e : String)
    (f : α → Eff β) : Eff.bind ⟨tr, Except.error e⟩ f = ⟨tr, Except.error e⟩ := rfl

/-- Awaiting an action and then doing nothing is the action itself. -/
theorem Eff.bind_pure_unit (t : Eff Unit) :
    Eff.bind t (fun _ => Eff.pure ()) = t := by
  obtain ⟨tr, r⟩ := t
  cases r with
  | error e => rfl
  | ok u => cases u; simp [Eff.pure]

/-- Helper: the value of `setup` when every phase succeeds, with the phases'
outcomes given as equations. -/
theorem setup_success {env : Env} {rnd : Rand} {«config» : PluginConfig}
    {st : PluginInstance Server} {dbOut : DatabaseOutput}
    {migOut : MigrationOutput} {seedOut : SeedOutput}
    {trS trI trD trM trSe : List Event}
    (h1 : serverPhase env rnd config = ⟨trS, Except.ok st⟩)
    (h2 : env.initServer st.output = ⟨trI, Except.ok ()⟩)
    (h3 : shouldRunDatabaseCreation env config st.output = ⟨trD, Except.ok dbOut⟩)
    (h4 : shouldRunMigration env config dbOut.server = ⟨trM, Except.ok migOut⟩)
    (h5 : shouldRunSeed env config dbOut.server = ⟨trSe, Except.ok seedOut⟩) :
    setup env rnd config =
      ⟨trS ++ trI ++ trD ++ trM ++ trSe, Except.ok
        { teardown := buildTeardown [dbOut.teardown, st.teardown]
          output :=
            { server := dbOut.server
              migrate := migOut
              seed := seedOut } }⟩ := by
  unfold setup
  rw [Eff.bind_ok h1, Eff.bind_ok h2, Eff.bind_ok h3, Eff.bind_ok h4,
    Eff.bind_ok h5]
  simp [Eff.pure, List.append_assoc]

/-- Helper: inversion of a successful `setup`: every phase succeeded and the
instance is the record the success return builds. -/
theorem setup_ok_inv {env : Env} {rnd : Rand} {«config» : PluginConfig}
    {inst : PluginInstance PluginResult}
    (h : (setup env rnd config).result = Except.ok inst) :
    ∃ (st : PluginInstance Server) (trS trI : List Event)
      (dbOut : DatabaseOutput) (trD : List Event)
      (migOut : MigrationOutput) (trM : List Event)
      (seedOut : SeedOutput) (trSe : List Event),
      serverPhase env rnd config = ⟨trS, Except.ok st⟩ ∧
      env.initServer st.output = ⟨trI, Except.ok ()⟩ ∧
      shouldRunDatabaseCreation env config st.output = ⟨trD, Except.ok dbOut⟩ ∧
      shouldRunMigration env config dbOut.server = ⟨trM, Except.ok migOut⟩ ∧
      shouldRunSeed env config dbOut.server = ⟨trSe, Except.ok seedOut⟩ ∧
      inst =
        { teardown := buildTeardown [dbOut.teardown, st.teardown]
          output :=
            { server := dbOut.server
              migrate := migOut
              seed := seedOut } } := by
  unfold setup at h
  rcases hS : serverPhase env rnd config with ⟨trS, rS⟩
  rw [hS] at h
  cases rS with
  | error e => simp at h
  | ok st =>
    simp only [Eff.bind_mk_ok, Eff.result_mk] at h
    rcases hI : env.initServer st.output with ⟨trI, rI⟩
    rw [hI] at h
    cases rI with
    | error e => simp at h
    | ok u =>
      cases u
      simp only [Eff.bind_mk_ok, Eff.result_mk] at h
      rcases hD : shouldRunDatabaseCreation env config st.output with ⟨trD, rD⟩
      rw [hD] at h
      cases rD with
      | error e => simp at h
      | ok dbOut =>
        simp only [Eff.bind_mk_ok, Eff.result_mk] at h
        rcases hM : shouldRunMigration env config dbOut.server with ⟨trM, rM⟩
        rw [hM] at h
        cases rM with
        | error e => simp at h
        | ok migOut =>
          simp only [Eff.bind_mk_ok, Eff.result_mk] at h
          rcases hSe : shouldRunSeed env config dbOut.server with ⟨trSe, rSe⟩
          rw [hSe] at h
          cases rSe with
          | error e => simp at h
          | ok seedOut =>
            simp only [Eff.bind_mk_ok, Eff.result_mk, Eff.pure] at h
            refine ⟨st, trS, trI, dbOut, trD, migOut, trM, seedOut, trSe,
              rfl, hI, hD, hM, hSe, ?_⟩
            injection h with h2
            exact h2.symm

/-- The server handle `specEnv` provisions from `rnd0` and an otherwise
unspecified Docker request. -/
def provisionedServer : Server :=
  { id := "postgres-sfx"
    connection :=
      { serverName := "postgres-sfx"
        hostname := "localhost"
        port := 0
        user := "ru"
        password := "rp"
        database := "postgres-sfx" } }

/-- The server phase output `specEnv` produces for that request: the handle
plus the stop-container teardown. -/
def provisionedInstance : PluginInstance Server :=
  { teardown := ⟨[Event.stopContainer "postgres-sfx"], Except.ok ()⟩
    output := provisionedServer }

/-- A caller-supplied server handle for the adoption path. -/
def suppliedServer : Server :=
  { id := "supplied"
    connection :=
      { serverName := "sn"
        hostname := "h"
        port := 5
        user := "u"
        password := "p"
        database := "orig" } }

/-- Claim C2: the claim that the composite teardown runs every action even
when an earlier one throws is false of `#buildTeardown`: the `for` loop
awaits each action in turn and a rejection propagates out of the loop, so
once one action throws, the remaining actions never run — the composite's
trace is exactly the failing action's trace and its outcome is the error. -/
theorem buildTeardown_aborts_on_failure (t : Eff Unit) (rest : List (Eff Unit))
    (e : String) (h : t.result = Except.error e) :
    buildTeardown (t :: rest) = ⟨t.events, Except.error e⟩ := by
  obtain ⟨tr, r⟩ := t
  simp only [Eff.result_mk] at h
  subst h
  rfl

/-- Claim C2 witness: a database drop that rejects followed by a container
stop: the composite performs only the drop's event and rejects; the stop
action's event never occurs. -/
theorem buildTeardown_aborts_on_failure_witness :
    (Eff.mk [Event.dbDrop "d"] (Except.error "drop failed") : Eff Unit).result
        = Except.error "drop failed" ∧
    buildTeardown
        [Eff.mk [Event.dbDrop "d"] (Except.error "drop failed"),
          Eff.mk [Event.stopContainer "s"] (Except.ok ())]
      = Eff.mk [Event.dbDrop "d"] (Except.error "drop failed") :=
  ⟨rfl, buildTeardown_aborts_on_failure _ _ _ rfl⟩

/-- Claim C5: with `database` omitted, the database phase returns the very
same server handle it was given, with a teardown that performs no event and
succeeds, and the phase itself performs no event and cannot fail. -/
theorem omitted_database_passthrough (env : Env) («config» : PluginConfig)
    (server : Server) (h : config.database = none) :
    shouldRunDatabaseCreation env config server =
      ⟨[], Except.ok { server := server, teardown := ⟨[], Except.ok ()⟩ }⟩ := by
  simp [shouldRunDatabaseCreation, h, Eff.pure]

/-- Claim C5 witness: the passthrough at a concrete server and a
database-less configuration. -/
theorem omitted_database_passthrough_witness :
    shouldRunDatabaseCreation specEnv
        { server := ServerSource.provision { strategy := "DOCKER" } }
        suppliedServer =
      ⟨[], Except.ok { server := suppliedServer, teardown := ⟨[], Except.ok ()⟩ }⟩ :=
  omitted_database_passthrough _ _ _ rfl

/-- Claim C3: an unrecognized server provisioning strategy tag makes the
whole `setup` reject immediately with the `assertNever` error, with an
empty trace (no collaborator call, no resource acquired); an unrecognized
migration strategy tag makes the migration phase reject at dispatch with
the `assertNever` error and an empty trace.  Neither path silently no-ops
or continues. -/
theorem unknown_strategy_fails_loudly
    (env : Env) (rnd : Rand) (cfgS cfgM : PluginConfig) (sc : ServerConfig)
    (server : Server) (m : MigrationConfig)
    (h1 : cfgS.server = ServerSource.provision sc)
    (h2 : sc.strategy ≠ ServerStrategy.DOCKER)
    (h3 : cfgM.migrate = some m)
    (h4 : m.strategy ≠ MigrationStrategy.SQL) :
    setup env rnd cfgS =
      ⟨[], Except.error ("Unknown strategy: " ++ sc.strategy)⟩ ∧
    shouldRunMigration env cfgM server =
      ⟨[], Except.error ("Unknown migration strategy: " ++ m.strategy)⟩ := by
  constructor
  · have hsp : serverPhase env rnd cfgS =
        ⟨[], Except.error ("Unknown strategy: " ++ sc.strategy)⟩ := by
      simp [serverPhase, h1, setupNewDatabaseServer, h2, assertNever, Eff.fail]
    unfold setup
    rw [Eff.bind_error hsp]
  · simp [shouldRunMigration, h3, h4, assertNever, Eff.fail]

/-- Claim C3 witness: the tags "PODMAN" and "FLYWAY" are not recognized;
setup (resp. the migration phase) rejects at once with the dispatch error
and performs nothing. -/
theorem unknown_strategy_fails_loudly_witness :
    setup specEnv rnd0
        { server := ServerSource.provision { strategy := "PODMAN" } } =
      ⟨[], Except.error ("Unknown strategy: " ++ "PODMAN")⟩ ∧
    shouldRunMigration specEnv
        { server := ServerSource.provision { strategy := "DOCKER" }
          migrate := some { strategy := "FLYWAY", root := "mig" } }
        suppliedServer =
      ⟨[], Except.error ("Unknown migration strategy: " ++ "FLYWAY")⟩ :=
  unknown_strategy_fails_loudly specEnv rnd0 _ _ { strategy := "PODMAN" }
    suppliedServer { strategy := "FLYWAY", root := "mig" }
    rfl (by decide) rfl (by decide)

/-- Claim C1: when the server phase, the readiness handshake and the
database phase succeed and the configured SQL migration run rejects with
`e`, `#setup` rejects with exactly `e`.  The outcome carries only the
error: the composite teardown is built only in the success return, so the
teardown actions accumulated by the completed phases are not handed to the
caller, and the trace shows the orchestrator has not invoked them itself —
the events end with the migration phase's. -/
theorem setup_migration_failure_rejects_without_teardowns
    (env : Env) (rnd : Rand) («config» : PluginConfig)
    (st : PluginInstance Server) (dbOut : DatabaseOutput) (e : String)
    (trS trI trD trM : List Event)
    (h1 : serverPhase env rnd config = ⟨trS, Except.ok st⟩)
    (h2 : env.initServer st.output = ⟨trI, Except.ok ()⟩)
    (h3 : shouldRunDatabaseCreation env config st.output = ⟨trD, Except.ok dbOut⟩)
    (h4 : shouldRunMigration env config dbOut.server = ⟨trM, Except.error e⟩) :
    setup env rnd config = ⟨trS ++ trI ++ trD ++ trM, Except.error e⟩ := by
  unfold setup
  rw [Eff.bind_ok h1, Eff.bind_ok h2, Eff.bind_ok h3, Eff.bind_error h4]
  simp [List.append_assoc]

/-- Claim C1 witness: under a Docker provisioning request whose migration's
second unit fails, setup rejects with the migration error; the trace holds
the container start, the handshake and the first migration unit only — no
teardown event — and the rejection carries no teardown action. -/
theorem setup_migration_failure_rejects_without_teardowns_witness :
    setup failingMigrationEnv rnd0
        { server := ServerSource.provision { strategy := "DOCKER" }
          migrate := some { strategy := "SQL", root := "mig" } } =
      ⟨[Event.dockerStart "postgres-sfx"] ++ [Event.serverInit "postgres-sfx"]
          ++ [] ++ [Event.migrationApply "mig/001.sql"],
        Except.error "migration unit 2 failed"⟩ :=
  setup_migration_failure_rejects_without_teardowns failingMigrationEnv rnd0
    _ provisionedInstance
    { server := provisionedServer, teardown := ⟨[], Except.ok ()⟩ }
    "migration unit 2 failed"
    [Event.dockerStart "postgres-sfx"] [Event.serverInit "postgres-sfx"]
    [] [Event.migrationApply "mig/001.sql"]
    rfl rfl rfl rfl

/-- A configuration exercising every phase: Docker provisioning, database
creation with hint "custom", SQL migrations under root "mig", and two seed
tables in the order A then B. -/
def fullConfig : PluginConfig :=
  { server := ServerSource.provision { strategy := "DOCKER" }
    database := some { prefixName := some "custom" }
    migrate := some { strategy := "SQL", root := "mig" }
    seed := some
      { tables := [("A", [[("email", "e1")], [("email", "e2")]]),
          ("B", [[("x", "1")]])] } }

/-- The handle `specEnv`'s database phase returns for `fullConfig`: the
provisioned handle re-bound to the created database. -/
def customDbServer : Server :=
  { provisionedServer with
      connection :=
        { provisionedServer.connection with database := "custom-dbsuf" } }

/-- The database phase output for `fullConfig` under `specEnv`. -/
def customDbOutput : DatabaseOutput :=
  { server := customDbServer
    teardown := ⟨[Event.dbDrop "custom-dbsuf"], Except.ok ()⟩ }

/-- The successful result of a Docker-provisioned setup with no database,
migrate or seed configuration, under `specEnv` and `rnd0`. -/
def basicInstance : PluginInstance PluginResult :=
  { teardown := ⟨[Event.stopContainer "postgres-sfx"], Except.ok ()⟩
    output :=
      { server := provisionedServer
        migrate := { results := [] }
        seed := { results := [] } } }

/-- The adoption-path configuration with nothing else configured. -/
def adoptionConfig : PluginConfig := { server := ServerSource.existing suppliedServer }

/-- The setup result for `adoptionConfig` under `specEnv`. -/
def adoptionInstance : PluginInstance PluginResult :=
  { teardown := ⟨[], Except.ok ()⟩
    output :=
      { server := suppliedServer
        migrate := { results := [] }
        seed := { results := [] } } }

/-- Claim C4: for every configuration, if `migrate` is omitted the migration
phase returns the explicit empty-results record `{ results: [] }` with an
empty trace — zero calls to the migration strategy collaborator — and
independently, if `seed` is omitted the seed phase does likewise; and every
successful setup result carries the explicit empty record as a present
field for whichever of the two phases its configuration omits. -/
theorem omitted_phase_empty_results (env : Env) (rnd : Rand)
    («config» : PluginConfig) (server : Server) :
    (config.migrate = none →
      shouldRunMigration env config server = ⟨[], Except.ok { results := [] }⟩) ∧
    (config.seed = none →
      shouldRunSeed env config server = ⟨[], Except.ok { results := [] }⟩) ∧
    ∀ inst : PluginInstance PluginResult,
      (setup env rnd config).result = Except.ok inst →
        (config.migrate = none → inst.output.migrate = { results := [] }) ∧
        (config.seed = none → inst.output.seed = { results := [] }) := by
  refine ⟨fun hm => by simp [shouldRunMigration, hm, Eff.pure],
    fun hs => by simp [shouldRunSeed, hs, Eff.pure], ?_⟩
  intro inst h
  obtain ⟨st, trS, trI, dbOut, trD, migOut, trM, seedOut, trSe,
    _, _, _, hM, hSe, hinst⟩ := setup_ok_inv h
  subst hinst
  constructor
  · intro hm
    have hM' : (⟨[], Except.ok { results := [] }⟩ : Eff MigrationOutput) =
        ⟨trM, Except.ok migOut⟩ := by
      rw [← hM]; simp [shouldRunMigration, hm, Eff.pure]
    have hmig : migOut = { results := [] } := by
      injection hM' with hA hB; injection hB with hC; exact hC.symm
    simp [hmig]
  · intro hs
    have hSe' : (⟨[], Except.ok { results := [] }⟩ : Eff SeedOutput) =
        ⟨trSe, Except.ok seedOut⟩ := by
      rw [← hSe]; simp [shouldRunSeed, hs, Eff.pure]
    have hseed : seedOut = { results := [] } := by
      injection hSe' with hA hB; injection hB with hC; exact hC.symm
    simp [hseed]

/-- A configuration running migrations but omitting `seed` (and `database`):
the spec's mixed scenario. -/
def migrateOnlyConfig : PluginConfig :=
  { server := ServerSource.provision { strategy := "DOCKER" }
    migrate := some { strategy := "SQL", root := "mig" } }

/-- The successful result of `migrateOnlyConfig` under `specEnv` and `rnd0`:
two migrations applied, seed the explicit empty record. -/
def migrateOnlyInstance : PluginInstance PluginResult :=
  { teardown := ⟨[Event.stopContainer "postgres-sfx"], Except.ok ()⟩
    output :=
      { server := provisionedServer
        migrate := { results := ["mig/001.sql", "mig/002.sql"] }
        seed := { results := [] } } }

/-- Claim C4 witness: a configuration omitting only `seed` (migrations
configured and applied) gets the explicit empty seed record, and a
configuration omitting only `migrate` gets the explicit empty migration
record — each phase judged under its own omission alone. -/
theorem omitted_phase_empty_results_witness :
    shouldRunSeed specEnv migrateOnlyConfig provisionedServer =
      ⟨[], Except.ok { results := [] }⟩ ∧
    migrateOnlyInstance.output.seed = { results := [] } ∧
    migrateOnlyInstance.output.migrate =
      { results := ["mig/001.sql", "mig/002.sql"] } ∧
    shouldRunMigration specEnv adoptionConfig suppliedServer =
      ⟨[], Except.ok { results := [] }⟩ ∧
    adoptionInstance.output.migrate = { results := [] } ∧
    basicInstance.output.migrate = { results := [] } ∧
    basicInstance.output.seed = { results := [] } := by
  have hA := omitted_phase_empty_results specEnv rnd0 migrateOnlyConfig
    provisionedServer
  have hB := omitted_phase_empty_results specEnv rnd0 adoptionConfig
    suppliedServer
  have hC := omitted_phase_empty_results specEnv rnd0
    { server := ServerSource.provision { strategy := "DOCKER" } }
    provisionedServer
  exact ⟨hA.2.1 rfl, (hA.2.2 migrateOnlyInstance rfl).2 rfl, rfl,
    hB.1 rfl, (hB.2.2 adoptionInstance rfl).1 rfl,
    (hC.2.2 basicInstance rfl).1 rfl, (hC.2.2 basicInstance rfl).2 rfl⟩

/-- Claim C6: for every successful setup call the composite teardown is
`#buildTeardown([teardownDatabase, serverTeardown])` — the database
teardown registered first, the server teardown second — and it runs
front-to-back with each action awaited before the next starts: once the
database action completes successfully, the composite's events are the
database action's followed by the server action's, and its outcome is the
server action's. -/
theorem composite_teardown_registration_order
    (env : Env) (rnd : Rand) («config» : PluginConfig)
    (st : PluginInstance Server) (dbOut : DatabaseOutput)
    (migOut : MigrationOutput) (seedOut : SeedOutput)
    (trS trI trD trM trSe : List Event)
    (h1 : serverPhase env rnd config = ⟨trS, Except.ok st⟩)
    (h2 : env.initServer st.output = ⟨trI, Except.ok ()⟩)
    (h3 : shouldRunDatabaseCreation env config st.output = ⟨trD, Except.ok dbOut⟩)
    (h4 : shouldRunMigration env config dbOut.server = ⟨trM, Except.ok migOut⟩)
    (h5 : shouldRunSeed env config dbOut.server = ⟨trSe, Except.ok seedOut⟩) :
    setup env rnd config =
      ⟨trS ++ trI ++ trD ++ trM ++ trSe, Except.ok
        { teardown := buildTeardown [dbOut.teardown, st.teardown]
          output :=
            { server := dbOut.server
              migrate := migOut
              seed := seedOut } }⟩ ∧
    ∀ trT : List Event, dbOut.teardown = ⟨trT, Except.ok ()⟩ →
      buildTeardown [dbOut.teardown, st.teardown] =
        ⟨trT ++ st.teardown.events, st.teardown.result⟩ := by
  refine ⟨setup_success h1 h2 h3 h4 h5, ?_⟩
  intro trT hT
  simp only [buildTeardown]
  rw [Eff.bind_ok hT, Eff.bind_pure_unit]

/-- Claim C6 witness: for the all-phases configuration the composite is the
drop-database action then the stop-container action, the drop's event
happening before the stop's. -/
theorem composite_teardown_registration_order_witness :
    setup specEnv rnd0 fullConfig =
      ⟨[Event.dockerStart "postgres-sfx"] ++ [Event.serverInit "postgres-sfx"]
          ++ [Event.dbCreate "custom-dbsuf"]
          ++ [Event.migrationApply "mig/001.sql", Event.migrationApply "mig/002.sql"]
          ++ [Event.seedInsert "A", Event.seedInsert "B"], Except.ok
        { teardown := buildTeardown [customDbOutput.teardown, provisionedInstance.teardown]
          output :=
            { server := customDbServer
              migrate := { results := ["mig/001.sql", "mig/002.sql"] }
              seed := { results := ["A", "B"] } } }⟩ ∧
    buildTeardown [customDbOutput.teardown, provisionedInstance.teardown] =
      ⟨[Event.dbDrop "custom-dbsuf"] ++ provisionedInstance.teardown.events,
        provisionedInstance.teardown.result⟩ := by
  have h := composite_teardown_registration_order specEnv rnd0 fullConfig
    provisionedInstance customDbOutput
    { results := ["mig/001.sql", "mig/002.sql"] } { results := ["A", "B"] }
    [Event.dockerStart "postgres-sfx"] [Event.serverInit "postgres-sfx"]
    [Event.dbCreate "custom-dbsuf"]
    [Event.migrationApply "mig/001.sql", Event.migrationApply "mig/002.sql"]
    [Event.seedInsert "A", Event.seedInsert "B"]
    rfl rfl rfl rfl rfl
  exact ⟨h.1, h.2 [Event.dbDrop "custom-dbsuf"] rfl⟩

/-- Claim C9: the phases run strictly in the fixed sequence server setup,
readiness handshake, database creation, migration, seeding: on success the
trace of `setup` is exactly the concatenation of the five phases' traces in
that order, each phase's events contiguous and complete before the next
phase's begin — no interleaving of phases is possible. -/
theorem phases_run_in_fixed_sequence
    (env : Env) (rnd : Rand) («config» : PluginConfig)
    (st : PluginInstance Server) (dbOut : DatabaseOutput)
    (migOut : MigrationOutput) (seedOut : SeedOutput)
    (trS trI trD trM trSe : List Event)
    (h1 : serverPhase env rnd config = ⟨trS, Except.ok st⟩)
    (h2 : env.initServer st.output = ⟨trI, Except.ok ()⟩)
    (h3 : shouldRunDatabaseCreation env config st.output = ⟨trD, Except.ok dbOut⟩)
    (h4 : shouldRunMigration env config dbOut.server = ⟨trM, Except.ok migOut⟩)
    (h5 : shouldRunSeed env config dbOut.server = ⟨trSe, Except.ok seedOut⟩) :
    (setup env rnd config).events = trS ++ trI ++ trD ++ trM ++ trSe := by
  rw [setup_success h1 h2 h3 h4 h5]

/-- Claim C9 witness: for the all-phases configuration the events are the
container start, then the handshake, then the database creation, then the
two migration units, then the two seed insertions, in exactly that order. -/
theorem phases_run_in_fixed_sequence_witness :
    (setup specEnv rnd0 fullConfig).events =
      [Event.dockerStart "postgres-sfx"] ++ [Event.serverInit "postgres-sfx"]
        ++ [Event.dbCreate "custom-dbsuf"]
        ++ [Event.migrationApply "mig/001.sql", Event.migrationApply "mig/002.sql"]
        ++ [Event.seedInsert "A", Event.seedInsert "B"] :=
  phases_run_in_fixed_sequence specEnv rnd0 fullConfig
    provisionedInstance customDbOutput
    { results := ["mig/001.sql", "mig/002.sql"] } { results := ["A", "B"] }
    [Event.dockerStart "postgres-sfx"] [Event.serverInit "postgres-sfx"]
    [Event.dbCreate "custom-dbsuf"]
    [Event.migrationApply "mig/001.sql", Event.migrationApply "mig/002.sql"]
    [Event.seedInsert "A", Event.seedInsert "B"]
    rfl rfl rfl rfl rfl

/-- Claim C7 counterexample: the claim that every specified field is used as
given fails for a specified empty-string `version`: the `||` defaulting
treats it as unspecified and synthesizes "latest" instead of "". -/
theorem specified_empty_version_replaced :
    ({ strategy := "DOCKER", version := some "" } : ServerConfig).version
        = some "" ∧
    (synthesizeDockerConfig rnd0
        { strategy := "DOCKER", version := some "" }).version = "latest" ∧
    ("latest" : String) ≠ "" := by
  refine ⟨rfl, rfl, ?_⟩
  decide

/-- Claim C7 (amended): unspecified identity fields are synthesized with
defaults — port 0, the random user and password draws, the configured
prefix (or "postgres") joined by "-" with the random suffix for the
database and server names, version "latest" — and a specified port
(including 0), user or password (including the empty string) is used as
given, while a specified databaseName, databaseNamePrefix,
databaseServerNamePrefix or version is used as given when non-empty (a
specified empty string selects the default). -/
theorem synthesized_defaults (rnd : Rand) («config» : ServerConfig) :
    (config.port = none → (synthesizeDockerConfig rnd config).port = 0) ∧
    (∀ p : Nat, config.port = some p →
      (synthesizeDockerConfig rnd config).port = p) ∧
    (config.user = none →
      (synthesizeDockerConfig rnd config).user = rnd.randUser) ∧
    (∀ u : String, config.user = some u →
      (synthesizeDockerConfig rnd config).user = u) ∧
    (config.password = none →
      (synthesizeDockerConfig rnd config).password = rnd.randPassword) ∧
    (∀ w : String, config.password = some w →
      (synthesizeDockerConfig rnd config).password = w) ∧
    (config.databaseName = none → config.databaseNamePrefix = none →
      (synthesizeDockerConfig rnd config).database =
        "postgres" ++ "-" ++ rnd.suffix) ∧
    (∀ n : String, config.databaseName = some n → n ≠ "" →
      (synthesizeDockerConfig rnd config).database = n) ∧
    (∀ q : String, config.databaseName = none →
      config.databaseNamePrefix = some q → q ≠ "" →
      (synthesizeDockerConfig rnd config).database = q ++ "-" ++ rnd.suffix) ∧
    (config.databaseServerNamePrefix = none →
      (synthesizeDockerConfig rnd config).serverName =
        "postgres" ++ "-" ++ rnd.suffix) ∧
    (∀ q : String, config.databaseServerNamePrefix = some q → q ≠ "" →
      (synthesizeDockerConfig rnd config).serverName = q ++ "-" ++ rnd.suffix) ∧
    (config.version = none →
      (synthesizeDockerConfig rnd config).version = "latest") ∧
    (∀ v : String, config.version = some v → v ≠ "" →
      (synthesizeDockerConfig rnd config).version = v) := by
  refine ⟨fun h => ?_, fun p h => ?_, fun h => ?_, fun u h => ?_, fun h => ?_,
    fun w h => ?_, fun h h2 => ?_, fun n h hne => ?_, fun q h h2 hne => ?_,
    fun h => ?_, fun q h hne => ?_, fun h => ?_, fun v h hne => ?_⟩ <;>
    simp_all [synthesizeDockerConfig, jsOr]

/-- A provisioning request specifying nothing besides the strategy. -/
def allDefaultServerConfig : ServerConfig := { strategy := "DOCKER" }

/-- A provisioning request specifying every identity field, with port 0 and
an empty user honored as given. -/
def allGivenServerConfig : ServerConfig :=
  { strategy := "DOCKER"
    port := some 0
    user := some ""
    password := some "pw"
    databaseName := some "mydb"
    databaseNamePrefix := some "np"
    databaseServerNamePrefix := some "sp"
    version := some "15" }

/-- Claim C7 witness: the defaults at a config specifying nothing, and the
given values at a config specifying everything (non-empty where `||`
applies). -/
theorem synthesized_defaults_witness :
    (synthesizeDockerConfig rnd0 allDefaultServerConfig).port = 0 ∧
    (synthesizeDockerConfig rnd0 allDefaultServerConfig).user = rnd0.randUser ∧
    (synthesizeDockerConfig rnd0 allDefaultServerConfig).password =
      rnd0.randPassword ∧
    (synthesizeDockerConfig rnd0 allDefaultServerConfig).database =
      "postgres" ++ "-" ++ rnd0.suffix ∧
    (synthesizeDockerConfig rnd0 allDefaultServerConfig).serverName =
      "postgres" ++ "-" ++ rnd0.suffix ∧
    (synthesizeDockerConfig rnd0 allDefaultServerConfig).version = "latest" ∧
    (synthesizeDockerConfig rnd0 allGivenServerConfig).port = 0 ∧
    (synthesizeDockerConfig rnd0 allGivenServerConfig).user = "" ∧
    (synthesizeDockerConfig rnd0 allGivenServerConfig).password = "pw" ∧
    (synthesizeDockerConfig rnd0 allGivenServerConfig).database = "mydb" ∧
    (synthesizeDockerConfig rnd0 allGivenServerConfig).serverName =
      "sp" ++ "-" ++ rnd0.suffix ∧
    (synthesizeDockerConfig rnd0 allGivenServerConfig).version = "15" := by
  obtain ⟨a1, a2, a3, a4, a5, a6, a7, a8, a9, a10, a11, a12, a13⟩ :=
    synthesized_defaults rnd0 allDefaultServerConfig
  obtain ⟨b1, b2, b3, b4, b5, b6, b7, b8, b9, b10, b11, b12, b13⟩ :=
    synthesized_defaults rnd0 allGivenServerConfig
  exact ⟨a1 rfl, a3 rfl, a5 rfl, a7 rfl rfl, a10 rfl, a12 rfl,
    b2 0 rfl, b4 "" rfl, b6 "pw" rfl, b8 "mydb" rfl (by decide),
    b11 "sp" rfl (by decide), b13 "15" rfl (by decide)⟩

/-- Claim C10: empty strings and explicit zero are handled asymmetrically in
the default synthesis: databaseName, databaseNamePrefix,
databaseServerNamePrefix and version use `||`, so a specified empty string
selects the default, whereas user and password use `??`, so a specified
empty string is honored as given, and a specified port 0 is preserved. -/
theorem empty_string_asymmetry (rnd : Rand) («config» : ServerConfig) :
    (config.databaseName = some "" → config.databaseNamePrefix = none →
      (synthesizeDockerConfig rnd config).database =
        "postgres" ++ "-" ++ rnd.suffix) ∧
    (config.databaseName = none → config.databaseNamePrefix = some "" →
      (synthesizeDockerConfig rnd config).database =
        "postgres" ++ "-" ++ rnd.suffix) ∧
    (config.databaseServerNamePrefix = some "" →
      (synthesizeDockerConfig rnd config).serverName =
        "postgres" ++ "-" ++ rnd.suffix) ∧
    (config.version = some "" →
      (synthesizeDockerConfig rnd config).version = "latest") ∧
    (config.user = some "" → (synthesizeDockerConfig rnd config).user = "") ∧
    (config.password = some "" →
      (synthesizeDockerConfig rnd config).password = "") ∧
    (config.port = some 0 → (synthesizeDockerConfig rnd config).port = 0) := by
  refine ⟨fun h1 h2 => ?_, fun h1 h2 => ?_, fun h => ?_, fun h => ?_,
    fun h => ?_, fun h => ?_, fun h => ?_⟩ <;>
    simp_all [synthesizeDockerConfig, jsOr]

/-- A provisioning request with empty-string identity fields and port 0. -/
def emptyStringsServerConfig : ServerConfig :=
  { strategy := "DOCKER"
    port := some 0
    user := some ""
    password := some ""
    databaseName := some ""
    databaseServerNamePrefix := some ""
    version := some "" }

/-- Claim C10 witness: at the empty-strings config the `||` fields fall back
to their defaults while the `??` fields keep the empty string and port 0. -/
theorem empty_string_asymmetry_witness :
    (synthesizeDockerConfig rnd0 emptyStringsServerConfig).database =
      "postgres" ++ "-" ++ rnd0.suffix ∧
    (synthesizeDockerConfig rnd0
        { strategy := "DOCKER", databaseNamePrefix := some "" }).database =
      "postgres" ++ "-" ++ rnd0.suffix ∧
    (synthesizeDockerConfig rnd0 emptyStringsServerConfig).serverName =
      "postgres" ++ "-" ++ rnd0.suffix ∧
    (synthesizeDockerConfig rnd0 emptyStringsServerConfig).version = "latest" ∧
    (synthesizeDockerConfig rnd0 emptyStringsServerConfig).user = "" ∧
    (synthesizeDockerConfig rnd0 emptyStringsServerConfig).password = "" ∧
    (synthesizeDockerConfig rnd0 emptyStringsServerConfig).port = 0 := by
  obtain ⟨a1, a2, a3, a4, a5, a6, a7⟩ :=
    empty_string_asymmetry rnd0 emptyStringsServerConfig
  obtain ⟨b1, b2, b3, b4, b5, b6, b7⟩ :=
    empty_string_asymmetry rnd0 { strategy := "DOCKER", databaseNamePrefix := some "" }
  exact ⟨a1 rfl rfl, b2 rfl rfl, a3 rfl, a4 rfl, a5 rfl, a6 rfl, a7 rfl⟩

/-- An adoption-path configuration that also configures database creation. -/
def adoptionDbConfig : PluginConfig :=
  { server := ServerSource.existing suppliedServer
    database := some { prefixName := some "custom" } }

/-- The server the setup result carries for `adoptionDbConfig` under
`specEnv`: bound to the created database, not the supplied handle. -/
def adoptionBoundServer : Server :=
  { suppliedServer with
      connection :=
        { suppliedServer.connection with database := "custom-dbsuf" } }

/-- The setup result for `adoptionDbConfig` under `specEnv`. -/
def adoptionDbInstance : PluginInstance PluginResult :=
  { teardown := ⟨[Event.dbDrop "custom-dbsuf"], Except.ok ()⟩
    output :=
      { server := adoptionBoundServer
        migrate := { results := [] }
        seed := { results := [] } } }

/-- Claim C8 counterexample: for an adoption configuration that also
configures database creation, setup succeeds but the result's server is not
the supplied handle (it is bound to the created database) and the composite
teardown performs the drop action, so the claim as universally stated is
false. -/
theorem adoption_with_database_not_passthrough :
    (setup specEnv rnd0 adoptionDbConfig).result =
      Except.ok adoptionDbInstance ∧
    adoptionDbInstance.output.server ≠ suppliedServer ∧
    adoptionDbInstance.teardown.events ≠ [] := by
  refine ⟨rfl, ?_, ?_⟩ <;> decide

/-- Claim C8 (amended): for every configuration whose server is an
already-constructed Server instance, setup takes the adoption path: the
server phase wraps the supplied handle with no event and a no-op teardown
(whatever else is configured); and when `database` is also omitted, every
successful setup result carries the supplied handle itself and its
composite teardown performs no event and cannot fail. -/
theorem adoption_passthrough (env : Env) (rnd : Rand)
    («config» : PluginConfig) (s : Server)
    (hs : config.server = ServerSource.existing s) :
    serverPhase env rnd config =
      ⟨[], Except.ok { teardown := ⟨[], Except.ok ()⟩, output := s }⟩ ∧
    (config.database = none →
      ∀ inst : PluginInstance PluginResult,
        (setup env rnd config).result = Except.ok inst →
          inst.output.server = s ∧ inst.teardown = ⟨[], Except.ok ()⟩) := by
  have hsp : serverPhase env rnd config =
      ⟨[], Except.ok { teardown := ⟨[], Except.ok ()⟩, output := s }⟩ := by
    simp [serverPhase, hs, setupExistingDatabaseServer, connectionStrategySetup,
      Eff.pure]
  refine ⟨hsp, ?_⟩
  intro hd inst h
  obtain ⟨st, trS, trI, dbOut, trD, migOut, trM, seedOut, trSe,
    hS, hI, hD, hM, hSe, hinst⟩ := setup_ok_inv h
  have hS2 := hsp.symm.trans hS
  injection hS2 with hA hB
  injection hB with hC
  subst hC
  have hD2 : (⟨[], Except.ok
      { server := s, teardown := ⟨[], Except.ok ()⟩ }⟩ : Eff DatabaseOutput) =
      ⟨trD, Except.ok dbOut⟩ := by
    rw [← hD]
    simp [shouldRunDatabaseCreation, hd, Eff.pure]
  injection hD2 with hA2 hB2
  injection hB2 with hC2
  subst hC2
  subst hinst
  exact ⟨rfl, rfl⟩

/-- Claim C8 witness: the server phase wraps the supplied handle both for
the plain adoption configuration and for the adoption configuration that
also creates a database; for the plain one the result's server is the very
supplied handle and the composite teardown performs nothing. -/
theorem adoption_passthrough_witness :
    serverPhase specEnv rnd0 adoptionConfig =
      ⟨[], Except.ok
        { teardown := ⟨[], Except.ok ()⟩, output := suppliedServer }⟩ ∧
    serverPhase specEnv rnd0 adoptionDbConfig =
      ⟨[], Except.ok
        { teardown := ⟨[], Except.ok ()⟩, output := suppliedServer }⟩ ∧
    adoptionInstance.output.server = suppliedServer ∧
    adoptionInstance.teardown = ⟨[], Except.ok ()⟩ := by
  have h1 := adoption_passthrough specEnv rnd0 adoptionConfig suppliedServer rfl
  have h2 := adoption_passthrough specEnv rnd0 adoptionDbConfig suppliedServer rfl
  exact ⟨h1.1, h2.1, h1.2 rfl adoptionInstance rfl⟩

end NiftyPg
